import Mathlib

/-!
Shallow embedding of the particle generation and physics engine of the
3d-particle-with-hand-motion repository.

Conventions of the embedding:
* JS numbers are modelled as elements of an arbitrary linear ordered field
  `K` (with a floor, used by the glyph sampler's array indexing).  Keeping
  `K` generic keeps every definition computable: theorems instantiate `K`
  with `ℝ` for analytic facts and with `ℚ` for decidable evaluations.
* `Math.random()` draws are modelled as oracle values indexed by particle
  index and call position.
* The browser `Math` object (`cos`, `sin`, `acos`, `sqrt`, `PI`) is passed
  explicitly as a `MathOps` record; theorems may instantiate it with the
  genuine real functions.
* The 2d canvas used by the glyph rasterizer is abstracted as an optional
  drawing context that maps the drawn text to the resulting image bytes
  (`getImageData().data`), mirroring the `null`-context guard of the source.
-/

set_option linter.unusedSectionVars false

namespace Particles

variable {K : Type*} [LinearOrderedField K] [FloorRing K]

/-- Formation identifiers: the `ParticleShape` enum (values observed in
`ParticleSystem.tsx`, `voice.ts` and `UI.tsx`). -/
inductive ParticleShape
  | SPHERE
  | CUBE
  | TORUS
  | GALAXY
  | DNA
  | SATURN
  | PYRAMID
  | BIG_BANG
  | TEXT
  | NUMBER
deriving DecidableEq, Repr

/-- The external math primitives used by the samplers and the color pass
(the JS `Math` object), passed explicitly so the embedding stays computable. -/
structure MathOps (K : Type*) where
  cos : K → K
  sin : K → K
  acos : K → K
  sqrt : K → K
  pi : K

/-- Canvas resolution of the glyph rasterizer (`const size = 100`). -/
def canvasSize : ℕ := 100

/-- The off-screen canvas: `getContext('2d')` may fail (modelled by `none`);
a live context is abstracted as the function from the drawn text to the image
bytes returned by `getImageData`. -/
structure CanvasEnv where
  ctx : Option (String → ℕ → ℕ)

/-- Foreground-pixel scan of `generateTextPositions` (lines 57-65): pixel
`(x, y)` is foreground when byte `(y*size+x)*4` of the image data exceeds the
threshold 128; pixels are collected scanning `y` outer, `x` inner. -/
def validPixels (data : ℕ → ℕ) : List (ℕ × ℕ) :=
  (List.range canvasSize).flatMap fun y =>
    (List.range canvasSize).filterMap fun x =>
      if 128 < data ((y * canvasSize + x) * 4) then some (x, y) else none

/-- `generateTextPositions` (lines 36-82): rasterize `text`, collect foreground
pixels, and map each of `pCount` particles to a uniformly random foreground
pixel (with replacement), with a small random depth.  A missing context or an
empty foreground yields the all-zero position array.  `rnd i 0` is the pixel
draw and `rnd i 1` the depth draw for particle `i`. -/
def generateTextPositions (env : CanvasEnv) (rnd : ℕ → ℕ → K) (text : String)
    (pCount : ℕ) (radius : K := 10) : List (K × K × K) :=
  match env.ctx with
  | none => List.replicate pCount (0, 0, 0)
  | some draw =>
    let px := validPixels (draw text)
    if px = [] then List.replicate pCount (0, 0, 0)
    else
      (List.range pCount).map fun i =>
        let pixel := px.getD (⌊rnd i 0 * (px.length : K)⌋).toNat (0, 0)
        let x := ((pixel.1 : K) / (canvasSize : K) - 0.5) * radius * 1.5
        let y := -(((pixel.2 : K) / (canvasSize : K)) - 0.5) * radius * 1.5
        let z := (rnd i 1 - 0.5) * radius * 0.2
        (x, y, z)

/-- Character dispatched for the TEXT formation (line 88:
`String.fromCharCode(65 + charIndex)`). -/
def textCharOf (charIndex : ℕ) : Char :=
  Char.ofNat (65 + charIndex)

/-- Barycentric folding of the PYRAMID case (lines 166-172), performed on the
three uniform draws; returns `(a, b, c, d)` with `d = 1 - a - b - c`. -/
def pyramidCoeffs (r0 r1 r2 : K) : K × K × K × K :=
  let p1 := if r0 + r1 > 1 then (1 - r0, 1 - r1) else (r0, r1)
  let p2 := if p1.2 + r2 > 1 then (1 - p1.2, 1 - r2) else (p1.2, r2)
  let p3 :=
    if p1.1 + p2.1 + p2.2 > 1 then (1 - p1.1, 1 - p2.1, 1 - p2.2)
    else (p1.1, p2.1, p2.2)
  (p3.1, p3.2.1, p3.2.2, 1 - p3.1 - p3.2.1 - p3.2.2)

/-- Body of the per-particle `switch` of `generateTargetPositions`
(lines 96-194), for the procedural (non-glyph) formations; `rnd i k` is the
`k`-th `Math.random()` call made for particle `i`. -/
def shapePoint (ops : MathOps K) (rnd : ℕ → ℕ → K) (type : ParticleShape)
    (pCount : ℕ) (radius : K) (i : ℕ) : K × K × K :=
  match type with
  | .SPHERE =>
    let phi := ops.acos (-1 + (2 * (i : K)) / (pCount : K))
    let theta := ops.sqrt ((pCount : K) * ops.pi) * phi
    (radius * ops.cos theta * ops.sin phi,
     radius * ops.sin theta * ops.sin phi,
     radius * ops.cos phi)
  | .CUBE =>
    ((rnd i 0 - 0.5) * radius * 1.5,
     (rnd i 1 - 0.5) * radius * 1.5,
     (rnd i 2 - 0.5) * radius * 1.5)
  | .TORUS =>
    let u := rnd i 0 * ops.pi * 2
    let v := rnd i 1 * ops.pi * 2
    let tubeRadius := radius * 0.3
    ((radius + tubeRadius * ops.cos v) * ops.cos u,
     (radius + tubeRadius * ops.cos v) * ops.sin u,
     tubeRadius * ops.sin v)
  | .GALAXY =>
    let armCount : K := 3
    let spin := (i : K) / (pCount : K) * armCount * ops.pi * 2
    let r := ((i : K) / (pCount : K)) * radius
    let randomOffset := (rnd i 0 - 0.5) * (radius * 0.2)
    (r * ops.cos spin + randomOffset,
     (rnd i 1 - 0.5) * (r * 0.2),
     r * ops.sin spin + randomOffset)
  | .DNA =>
    let strands : ℕ := 2
    let strandIdx := i % strands
    let t := ((i : K) / (pCount : K)) * ops.pi * 10
    let height := ((i : K) / (pCount : K)) * radius * 2.5 - radius * 1.25
    let r := radius * 0.5
    let offset := (strandIdx : K) * ops.pi
    (r * ops.cos (t + offset) + (rnd i 0 - 0.5),
     height,
     r * ops.sin (t + offset) + (rnd i 1 - 0.5))
  | .SATURN =>
    if (i : K) < (pCount : K) * 0.7 then
      let phi := ops.acos (-1 + (2 * (i : K)) / ((pCount : K) * 0.7))
      let theta := ops.sqrt (((pCount : K) * 0.7) * ops.pi) * phi
      let r := radius * 0.6
      (r * ops.cos theta * ops.sin phi,
       r * ops.sin theta * ops.sin phi,
       r * ops.cos phi)
    else
      let theta := rnd i 0 * ops.pi * 2
      let rMin := radius * 0.8
      let rMax := radius * 1.5
      let r := ops.sqrt (rnd i 1) * (rMax - rMin) + rMin
      (r * ops.cos theta,
       (rnd i 2 - 0.5) * 0.2,
       r * ops.sin theta)
  | .PYRAMID =>
    let q := pyramidCoeffs (rnd i 0) (rnd i 1) (rnd i 2)
    let a := q.1
    let b := q.2.1
    let c := q.2.2.1
    let d := q.2.2.2
    let s := radius * 1.5
    (a * s + b * (-s) + c * (-s) + d * s,
     a * s + b * (-s) + c * s + d * (-s),
     a * s + b * s + c * (-s) + d * (-s))
  | _ =>
    let r := rnd i 0 * radius * 2
    let theta := rnd i 1 * ops.pi * 2
    let phi := ops.acos (2 * rnd i 2 - 1)
    (r * ops.sin phi * ops.cos theta,
     r * ops.sin phi * ops.sin theta,
     r * ops.cos phi)

/-- `generateTargetPositions` (lines 85-196): glyph formations delegate to the
rasterizing sampler; every other formation fills one point per particle index
from its procedural distribution. -/
def generateTargetPositions (ops : MathOps K) (env : CanvasEnv)
    (rnd : ℕ → ℕ → K) (charIndex numIndex : ℕ) (type : ParticleShape)
    (pCount : ℕ) (radius : K := 10) : List (K × K × K) :=
  match type with
  | .TEXT => generateTextPositions env rnd (String.mk [textCharOf charIndex]) pCount radius
  | .NUMBER => generateTextPositions env rnd (toString numIndex) pCount radius
  | t => (List.range pCount).map (shapePoint ops rnd t pCount radius)

/-- The three per-particle buffers owned by the simulation
(`currentPositionsRef`, `targetPositionsRef`, `velocitiesRef`), modelled as
lists of coordinate triples. -/
structure ParticleRefs (K : Type*) where
  current : List (K × K × K)
  target : List (K × K × K)
  velocity : List (K × K × K)

/-- Buffer (re)initialization on a particle-count change (the `useMemo` keyed
on `[count]`, lines 199-203): `current` is sampled from the BIG_BANG
distribution, `velocity` is zero-filled, `target` is sampled from the active
formation.  The two sampler invocations consume independent draw streams. -/
def resize (ops : MathOps K) (env : CanvasEnv) (rnd1 rnd2 : ℕ → ℕ → K)
    (charIndex numIndex : ℕ) (shape : ParticleShape) (count : ℕ) :
    ParticleRefs K :=
  { current := generateTargetPositions ops env rnd1 charIndex numIndex .BIG_BANG count
    velocity := List.replicate count (0, 0, 0)
    target := generateTargetPositions ops env rnd2 charIndex numIndex shape count }

/-- The per-particle color buffer initialization of the geometry `useMemo`
(lines 222-227): every particle starts at the base color. -/
def initColors (base : K × K × K) (count : ℕ) : List (K × K × K) :=
  List.replicate count base

/-- Target replacement on a formation/character/digit change (the `useEffect`
on `[shape, count, charIndex, numIndex]`, lines 206-208): only
`targetPositionsRef` is reassigned. -/
def retarget (ops : MathOps K) (env : CanvasEnv) (rnd : ℕ → ℕ → K)
    (charIndex numIndex : ℕ) (shape : ParticleShape) (count : ℕ)
    (s : ParticleRefs K) : ParticleRefs K :=
  { s with target := generateTargetPositions ops env rnd charIndex numIndex shape count }

/-- Audio bands as read by the frame loop. -/
structure AudioData (K : Type*) where
  bass : K
  mid : K
  treble : K
  average : K

/-- Audio default of the frame loop (lines 239-245): a missing audio service
yields zero bass and treble.  Returns `(bass, treble)`. -/
def frameAudio (svc : Option (AudioData K)) : K × K :=
  match svc with
  | none => (0, 0)
  | some d => (d.bass, d.treble)

/-- Spring constant of the integrator (line 279). -/
def attraction : K := 0.03

/-- Velocity damping factor of the integrator (line 280). -/
def damping : K := 0.92

/-- Jitter scale of the integrator (line 281): base 0.02 plus treble times
0.1. -/
def noiseAmt (audioTreble : K) : K := 0.02 + audioTreble * 0.1

/-- One integrator step for a single axis of a single particle
(lines 290-308 restricted to one axis, the axes being independent):
acceleration toward the target, noise, then damping, then position update.
`r` is the uniform draw of the axis' noise term; returns
(new velocity, new position). -/
def stepAxis (audioTreble : K) (r : K) (t p v : K) : K × K :=
  let a := (t - p) * attraction
  let n := (r - 0.5) * noiseAmt audioTreble
  let v1 := v + a + n
  let v2 := v1 * damping
  (v2, p + v2)

/-- One integrator step for one particle (loop body, lines 283-308): the three
axes are updated independently; `r k` is the draw of axis `k`.  Returns
(new velocity, new position). -/
def stepParticle (audioTreble : K) (r : ℕ → K) (t p v : K × K × K) :
    (K × K × K) × (K × K × K) :=
  let sx := stepAxis audioTreble (r 0) t.1 p.1 v.1
  let sy := stepAxis audioTreble (r 1) t.2.1 p.2.1 v.2.1
  let sz := stepAxis audioTreble (r 2) t.2.2 p.2.2 v.2.2
  ((sx.1, sy.1, sz.1), (sx.2, sy.2, sz.2))

/-- One integrator frame over the whole cloud (the `for` loop of `useFrame`,
lines 283-308): particle `i` reads `targets[i]`, `currents[i]`, `vels[i]` and
draws `rnd i`.  Returns (new velocities, new positions). -/
def stepCloud (audioTreble : K) (rnd : ℕ → ℕ → K)
    (targets currents vels : List (K × K × K)) :
    List (K × K × K) × List (K × K × K) :=
  let res := (List.range currents.length).map fun i =>
    stepParticle audioTreble (rnd i) (targets.getD i (0, 0, 0))
      (currents.getD i (0, 0, 0)) (vels.getD i (0, 0, 0))
  (res.map Prod.fst, res.map Prod.snd)

/-- Squared Euclidean distance between two coordinate triples (monotonicity of
the Euclidean distance is equivalent to monotonicity of its square). -/
def distSq (p q : K × K × K) : K :=
  (p.1 - q.1) ^ 2 + (p.2.1 - q.2.1) ^ 2 + (p.2.2 - q.2.2) ^ 2

/-- One zero-noise integrator step on the state `(position, velocity)` of one
particle: the frame step with all noise draws at the centered value `1/2`
(which makes the jitter term vanish) and zero treble. -/
def zstep (t : K × K × K) (s : (K × K × K) × (K × K × K)) :
    (K × K × K) × (K × K × K) :=
  let r := stepParticle 0 (fun _ => 1 / 2) t s.1 s.2
  (r.2, r.1)

/-- `n` zero-noise integrator steps with constant target `t`. -/
def ziter (t : K × K × K) : ℕ → (K × K × K) × (K × K × K) →
    (K × K × K) × (K × K × K)
  | 0, s => s
  | n + 1, s => zstep t (ziter t n s)

/-- Zero-noise step on one axis: state `(position, velocity)`. -/
def zstepAxis (t : K) (s : K × K) : K × K :=
  ((stepAxis 0 (1 / 2) t s.1 s.2).2, (stepAxis 0 (1 / 2) t s.1 s.2).1)

/-- `n` zero-noise steps on one axis. -/
def ziterAxis (t : K) : ℕ → K × K → K × K
  | 0, s => s
  | n + 1, s => zstepAxis t (ziterAxis t n s)

/-- Quadratic energy combining one axis' position error and velocity, used to
analyze the zero-noise integrator (an artifact of the analysis, not part of
the program model). -/
def lyap (e v : K) : K := e ^ 2 + (19 / 10) * e * v + 34 * v ^ 2

/-- `THREE.MathUtils.lerp`: linear interpolation `(1 - t) * x + t * y`. -/
def lerp (x y t : K) : K := (1 - t) * x + t * y

/-- Per-particle heat factor of the dynamic coloring pass (lines 311-313):
`min(speed * 3.0 + treble * 0.5, 1)` where `speed` is the Euclidean norm of
the particle's velocity. -/
def heat (ops : MathOps K) (audioTreble : K) (v : K × K × K) : K :=
  let speed := ops.sqrt (v.1 ^ 2 + v.2.1 ^ 2 + v.2.2 ^ 2)
  min (speed * 3.0 + audioTreble * 0.5) 1

/-- Dynamic coloring of one particle (lines 310-317): each channel is lerped
from the base color to the hot color by the heat factor. -/
def particleColor (ops : MathOps K) (audioTreble : K) (v : K × K × K)
    (base hot : K × K × K) : K × K × K :=
  let t := heat ops audioTreble v
  (lerp base.1 hot.1 t, lerp base.2.1 hot.2.1 t, lerp base.2.2 hot.2.2 t)

/-- The command guard of `VoiceService.processCommand` for `SET_CHAR`
(voice.ts lines 156-163): the matched character's alphabet index is emitted
only when it lies in `[0, 25]`. -/
def setCharCommand (c : Char) : Option ℕ :=
  let index : ℤ := (c.toNat : ℤ) - 65
  if 0 ≤ index ∧ index ≤ 25 then some index.toNat else none

/-- The command guard of `VoiceService.processCommand` for `SET_NUM`
(voice.ts lines 166-182), with the `parseInt`/number-word parse abstracted to
an optional integer (`none` models `NaN`): the value is emitted only when it
lies in `[0, 9]`. -/
def setNumCommand (numVal : Option ℤ) : Option ℤ :=
  match numVal with
  | none => none
  | some v => if 0 ≤ v ∧ v ≤ 9 then some v else none

/-! ## Helper lemmas (shared) -/

/-- Unfolding lemma for `stepCloud`. -/
theorem stepCloud_def (audioTreble : K) (rnd : ℕ → ℕ → K)
    (targets currents vels : List (K × K × K)) :
    stepCloud audioTreble rnd targets currents vels =
      (((List.range currents.length).map fun i =>
          stepParticle audioTreble (rnd i) (targets.getD i (0, 0, 0))
            (currents.getD i (0, 0, 0)) (vels.getD i (0, 0, 0))).map Prod.fst,
       ((List.range currents.length).map fun i =>
          stepParticle audioTreble (rnd i) (targets.getD i (0, 0, 0))
            (currents.getD i (0, 0, 0)) (vels.getD i (0, 0, 0))).map Prod.snd) :=
  rfl

/-- The glyph sampler always produces exactly `pCount` positions. -/
theorem generateTextPositions_length (env : CanvasEnv) (rnd : ℕ → ℕ → K)
    (text : String) (pCount : ℕ) (radius : K) :
    (generateTextPositions env rnd text pCount radius).length = pCount := by
  unfold generateTextPositions
  cases h : env.ctx with
  | none => simp
  | some draw =>
    by_cases hp : validPixels (draw text) = [] <;> simp [hp]

/-- Every formation produces exactly `pCount` positions. -/
theorem generateTargetPositions_length (ops : MathOps K) (env : CanvasEnv)
    (rnd : ℕ → ℕ → K) (ci ni : ℕ) (type : ParticleShape) (pCount : ℕ)
    (radius : K) :
    (generateTargetPositions ops env rnd ci ni type pCount radius).length = pCount := by
  cases type <;>
    simp [generateTargetPositions, generateTextPositions_length]

/-- A centered draw (`r = 1/2`) with target equal to current and zero velocity
leaves the axis unchanged. -/
theorem stepAxis_fixed_point (t : K) :
    stepAxis (0 : K) (1 / 2) t t 0 = (0, t) := by
  unfold stepAxis attraction damping noiseAmt
  norm_num

/-- A particle at its target with zero velocity and centered draws is left
unchanged by the zero-treble integrator step. -/
theorem stepParticle_fixed_point (t : K × K × K) :
    stepParticle (0 : K) (fun _ => 1 / 2) t t (0, 0, 0) = ((0, 0, 0), t) := by
  unfold stepParticle
  rw [stepAxis_fixed_point, stepAxis_fixed_point, stepAxis_fixed_point]

/-! ## Claim theorems -/

/-- Claim C1: per frame, for every particle and each axis independently, the
integrator computes acceleration `(target - current) * 0.03`, adds the
acceleration and the jitter term `(r - 0.5) * (0.02 + treble * 0.1)` to the
velocity, then multiplies the updated velocity by the damping factor `0.92`,
and only then adds the damped velocity to the position: the resulting velocity
is `(v + accel + noise) * 0.92` (damping applied after acceleration and noise)
and the resulting position is the old position plus that damped velocity. -/
theorem C1_integrator_order (treble r t p v : K) :
    stepAxis treble r t p v =
      ((v + (t - p) * 0.03 + (r - 0.5) * (0.02 + treble * 0.1)) * 0.92,
       p + (v + (t - p) * 0.03 + (r - 0.5) * (0.02 + treble * 0.1)) * 0.92) := by
  unfold stepAxis attraction damping noiseAmt
  exact Prod.ext (by ring) (by ring)

/-- Claim C2 counterexample: with missing audio (treble 0) the integrator
still jitters: one step at the fixed configuration (target = current = 0,
velocity 0) with noise draw 1 moves the velocity and the position (to
`0.0092`), so zero audio does not imply "no jitter" and the configuration is
not a fixed point for every draw. -/
theorem C2_counterexample :
    stepAxis (K := ℚ) (frameAudio (K := ℚ) none).2 1 0 0 0 ≠ (0, 0) := by
  show stepAxis (K := ℚ) 0 1 0 0 0 ≠ (0, 0)
  unfold stepAxis attraction damping noiseAmt
  simp only [Prod.mk.injEq, not_and]
  intro h
  norm_num at h

/-- Claim C2 as amended: with missing audio (all-zero bands) the jitter
amplitude reduces to the base `0.02` but does not vanish; the fixed point
holds once the noise draws are additionally centered (`r = 1/2`, making the
sampled jitter zero): one frame with target equal to current for every
particle, zero velocity and zero audio then leaves every velocity at zero and
every position unchanged. -/
theorem C2_amended_fixed_point (ps : List (K × K × K)) :
    stepCloud (frameAudio (K := K) none).2 (fun _ _ => 1 / 2) ps ps
        (List.replicate ps.length (0, 0, 0)) =
      (List.replicate ps.length (0, 0, 0), ps) := by
  have hpoint : ∀ i, i < ps.length →
      stepParticle (frameAudio (K := K) none).2 (fun _ => 1 / 2)
          (ps.getD i (0, 0, 0)) (ps.getD i (0, 0, 0))
          ((List.replicate ps.length ((0 : K), (0 : K), (0 : K))).getD i (0, 0, 0)) =
        ((0, 0, 0), ps.getD i (0, 0, 0)) := by
    intro i hi
    have hz : (List.replicate ps.length ((0 : K), (0 : K), (0 : K))).getD i (0, 0, 0)
        = (0, 0, 0) := by
      rw [List.getD_eq_getElem _ _ (by simpa using hi), List.getElem_replicate]
    rw [hz]
    exact stepParticle_fixed_point _
  rw [stepCloud_def]
  refine Prod.ext ?_ ?_
  · apply List.ext_getElem
    · simp
    · intro n h1 h2
      simp only [List.getElem_map, List.getElem_range, List.getElem_replicate]
      rw [hpoint n (by simpa using h1)]
  · apply List.ext_getElem
    · simp
    · intro n h1 h2
      simp only [List.getElem_map, List.getElem_range]
      rw [hpoint n (by simpa using h1)]
      exact List.getD_eq_getElem _ _ h2

/-- Claim C3: the pyramid fold evaluated at the failing input
`a = 0.9, b = 0.05, c = 0.9` (all in `[0,1]`): no fold of the first two
triggers, the third reflects all three coordinates and yields
`(0.1, 0.95, 0.1)` with `d = -0.15 < 0` — the produced coefficients are not
a convex combination, so the sampled point lies outside the tetrahedron. -/
theorem C3_pyramid_fold_bug :
    pyramidCoeffs (K := ℚ) (9 / 10) (1 / 20) (9 / 10)
        = (1 / 10, 19 / 20, 1 / 10, -(3 / 20)) ∧
      (pyramidCoeffs (K := ℚ) (9 / 10) (1 / 20) (9 / 10)).2.2.2 < 0 := by
  constructor <;> norm_num [pyramidCoeffs]

/-- Claim C5: for every formation (glyph formations included) and every
count, `sample` returns exactly `count` positions; in particular a zero count
yields the empty sequence.  (In this real-valued embedding every coordinate
is a finite field element by construction; NaN/Infinity are floating-point
artifacts outside the model.) -/
theorem C5_sample_count :
    (∀ (ops : MathOps K) (env : CanvasEnv) (rnd : ℕ → ℕ → K) (ci ni : ℕ)
        (type : ParticleShape) (pCount : ℕ) (radius : K),
        (generateTargetPositions ops env rnd ci ni type pCount radius).length = pCount) ∧
      (∀ (ops : MathOps K) (env : CanvasEnv) (rnd : ℕ → ℕ → K) (ci ni : ℕ)
        (type : ParticleShape) (radius : K),
        generateTargetPositions ops env rnd ci ni type 0 radius = []) := by
  refine ⟨fun ops env rnd ci ni type pCount radius =>
    generateTargetPositions_length ops env rnd ci ni type pCount radius,
    fun ops env rnd ci ni type radius => ?_⟩
  exact List.eq_nil_of_length_eq_zero
    (generateTargetPositions_length ops env rnd ci ni type 0 radius)

/-- Claim C6: `retarget` (the shape-change effect) replaces only the target
buffer: for every prior state, `current` and `velocity` are untouched, while
`target` becomes the freshly sampled buffer. -/
theorem C6_retarget_preserves_state (ops : MathOps K) (env : CanvasEnv)
    (rnd : ℕ → ℕ → K) (ci ni : ℕ) (shape : ParticleShape) (count : ℕ)
    (s : ParticleRefs K) :
    (retarget ops env rnd ci ni shape count s).current = s.current ∧
      (retarget ops env rnd ci ni shape count s).velocity = s.velocity ∧
      (retarget ops env rnd ci ni shape count s).target =
        generateTargetPositions ops env rnd ci ni shape count :=
  ⟨rfl, rfl, rfl⟩

/-- Claim C7 counterexample: `resize` does not recompute `current` from the
active formation.  With the genuine real math functions, all draws at 0 and
the CUBE formation active, the reinitialized `current` is the BIG_BANG sample
`[(0, 0, 0)]` while a fresh sample of the active formation is
`[(-7.5, -7.5, -7.5)]`. -/
theorem C7_counterexample :
    (resize (K := ℝ) ⟨Real.cos, Real.sin, Real.arccos, Real.sqrt, Real.pi⟩
        ⟨none⟩ (fun _ _ => 0) (fun _ _ => 0) 0 0 .CUBE 1).current ≠
      generateTargetPositions (K := ℝ)
        ⟨Real.cos, Real.sin, Real.arccos, Real.sqrt, Real.pi⟩ ⟨none⟩
        (fun _ _ => 0) 0 0 .CUBE 1 := by
  intro h
  have h0 := congrArg (fun l => (l.headD (0, 0, 0)).1) h
  simp [resize, generateTargetPositions, shapePoint.eq_def, List.range_succ] at h0
  norm_num at h0

/-- Claim C7 as amended: on a particle-count change all four core sequences
are reallocated at the new count, `velocity` is zero-filled, `target` is
freshly sampled from the active formation, and `current` is freshly sampled
from the BIG_BANG (explosion) distribution — not from the active formation. -/
theorem C7_amended_resize (ops : MathOps K) (env : CanvasEnv)
    (rnd1 rnd2 : ℕ → ℕ → K) (ci ni : ℕ) (shape : ParticleShape) (n : ℕ)
    (base : K × K × K) :
    (resize ops env rnd1 rnd2 ci ni shape n).current.length = n ∧
      (resize ops env rnd1 rnd2 ci ni shape n).target.length = n ∧
      (resize ops env rnd1 rnd2 ci ni shape n).velocity =
        List.replicate n (0, 0, 0) ∧
      (initColors base n).length = n ∧
      (resize ops env rnd1 rnd2 ci ni shape n).current =
        generateTargetPositions ops env rnd1 ci ni .BIG_BANG n ∧
      (resize ops env rnd1 rnd2 ci ni shape n).target =
        generateTargetPositions ops env rnd2 ci ni shape n :=
  ⟨generateTargetPositions_length ops env rnd1 ci ni .BIG_BANG n 10,
   generateTargetPositions_length ops env rnd2 ci ni shape n 10,
   rfl, by simp [initColors], rfl, rfl⟩

/-- Claim C8 counterexample: no clamping happens on the way to the sampler:
`charIndex = 26` makes the glyph sampler rasterize the character 0x5B (the
one right after Z), not the clamped letter Z; and an out-of-range voice
number value (42) is dropped by the guard — the command is ignored, not
clamped into range. -/
theorem C8_counterexample :
    textCharOf 26 = Char.ofNat 91 ∧ textCharOf 26 ≠ textCharOf 25 ∧
      setNumCommand (some 42) = none := by
  refine ⟨rfl, by decide, by decide⟩

/-- Claim C8 as amended: in-range glyph indices map as documented
(`charIndex = 0` selects A, `charIndex = 25` selects Z, and the voice guards
accept exactly the valid ranges, emitting the parsed value), while
out-of-range voice values are rejected (the command is simply not emitted)
rather than clamped, and the sampler itself applies no clamping. -/
theorem C8_amended_guards :
    textCharOf 0 = Char.ofNat 65 ∧ textCharOf 25 = Char.ofNat 90 ∧
      setCharCommand (Char.ofNat 65) = some 0 ∧
      setCharCommand (Char.ofNat 90) = some 25 ∧
      setNumCommand (some 0) = some 0 ∧ setNumCommand (some 9) = some 9 ∧
      setNumCommand (some 10) = none ∧ setNumCommand (some (-1)) = none ∧
      setNumCommand none = none := by
  decide

/-- Claim C9: for the glyph formations, a missing drawing context, and
likewise a rasterization that yields no foreground pixel, makes the sampler
return the all-zero position array of length `count` (no failure path). -/
theorem C9_glyph_degenerate (env : CanvasEnv) (rnd : ℕ → ℕ → K)
    (text : String) (pCount : ℕ) (radius : K)
    (h : env.ctx = none ∨
      ∃ draw, env.ctx = some draw ∧ validPixels (draw text) = []) :
    generateTextPositions env rnd text pCount radius =
      List.replicate pCount (0, 0, 0) := by
  unfold generateTextPositions
  rcases h with h | ⟨draw, hctx, hpx⟩
  · rw [h]
  · rw [hctx]
    simp [hpx]

/-- Witness for C9: a context whose image data is identically zero has no
foreground pixel, and the glyph sampler indeed returns three zero triples
for a three-particle request. -/
theorem C9_witness :
    generateTextPositions (K := ℚ) ⟨some fun _ _ => 0⟩ (fun _ _ => 0)
        (String.mk [textCharOf 25]) 3 10 = List.replicate 3 (0, 0, 0) :=
  C9_glyph_degenerate _ _ _ _ _ (Or.inr ⟨_, rfl, by simp [validPixels]⟩)

/-- With an interpolation factor in `[0, 1]`, `lerp x y t` lies between `x`
and `y`. -/
theorem lerp_mem_uIcc (x y t : K) (h0 : 0 ≤ t) (h1 : t ≤ 1) :
    min x y ≤ lerp x y t ∧ lerp x y t ≤ max x y := by
  unfold lerp
  rcases le_total x y with h | h
  · rw [min_eq_left h, max_eq_right h]
    constructor <;> nlinarith
  · rw [min_eq_right h, max_eq_left h]
    constructor <;> nlinarith

/-- Claim C10: for nonnegative treble and a square root returning nonnegative
values on nonnegative inputs, the heat factor lies in `[0, 1]`, so every
written color channel lies in the closed interval between the base channel
and the hot channel; and with zero treble and zero velocity the written color
equals the base color exactly. -/
theorem C10_heat_color_bounds (ops : MathOps K)
    (hs : ∀ x : K, 0 ≤ x → 0 ≤ ops.sqrt x) (h0 : ops.sqrt 0 = 0)
    (treble : K) (ht : 0 ≤ treble) (v base hot : K × K × K) :
    (0 ≤ heat ops treble v ∧ heat ops treble v ≤ 1) ∧
      (min base.1 hot.1 ≤ (particleColor ops treble v base hot).1 ∧
        (particleColor ops treble v base hot).1 ≤ max base.1 hot.1) ∧
      (min base.2.1 hot.2.1 ≤ (particleColor ops treble v base hot).2.1 ∧
        (particleColor ops treble v base hot).2.1 ≤ max base.2.1 hot.2.1) ∧
      (min base.2.2 hot.2.2 ≤ (particleColor ops treble v base hot).2.2 ∧
        (particleColor ops treble v base hot).2.2 ≤ max base.2.2 hot.2.2) ∧
      (treble = 0 → v = (0, 0, 0) → particleColor ops treble v base hot = base) := by
  have hspeed : 0 ≤ ops.sqrt (v.1 ^ 2 + v.2.1 ^ 2 + v.2.2 ^ 2) :=
    hs _ (by positivity)
  have hheat0 : 0 ≤ heat ops treble v := by
    unfold heat
    exact le_min (by nlinarith) zero_le_one
  have hheat1 : heat ops treble v ≤ 1 := min_le_right _ _
  refine ⟨⟨hheat0, hheat1⟩,
    lerp_mem_uIcc _ _ _ hheat0 hheat1,
    lerp_mem_uIcc _ _ _ hheat0 hheat1,
    lerp_mem_uIcc _ _ _ hheat0 hheat1, ?_⟩
  intro htr hv
  subst htr hv
  have hh : heat ops (0 : K) ((0 : K), (0 : K), (0 : K)) = 0 := by
    unfold heat
    norm_num [h0]
  unfold particleColor
  rw [hh]
  unfold lerp
  exact Prod.ext (by ring) (Prod.ext (by ring) (by ring))

/-- Witness for C10: with the identity as square root oracle, zero treble and
zero velocity, the heat factor is within `[0, 1]` and the written color
equals the base color `(0, 1/2, 1)`. -/
theorem C10_witness :
    (0 : ℚ) ≤ heat ⟨id, id, id, id, 0⟩ 0 (0, 0, 0) ∧
      heat (⟨id, id, id, id, 0⟩ : MathOps ℚ) 0 (0, 0, 0) ≤ 1 ∧
      particleColor (⟨id, id, id, id, 0⟩ : MathOps ℚ) 0 (0, 0, 0)
        (0, 1 / 2, 1) (1, 1, 1) = (0, 1 / 2, 1) :=
  let h := C10_heat_color_bounds (K := ℚ) ⟨id, id, id, id, 0⟩
    (fun _ hx => hx) rfl 0 le_rfl (0, 0, 0) (0, 1 / 2, 1) (1, 1, 1)
  ⟨h.1.1, h.1.2, h.2.2.2.2 rfl rfl⟩

/-- The zero-noise axis step in closed form: with position error
`e = p - t`, the new error is `(2431/2500)·e + (23/25)·v` and the new
velocity is `(23/25)·v - (69/2500)·e`. -/
theorem zstepAxis_spec (t : K) (s : K × K) :
    zstepAxis t s =
      (t + (2431 / 2500) * (s.1 - t) + (23 / 25) * s.2,
       (23 / 25) * s.2 - (69 / 2500) * (s.1 - t)) := by
  unfold zstepAxis stepAxis attraction damping noiseAmt
  exact Prod.ext (by ring) (by ring)

/-- The energy is nonnegative. -/
theorem lyap_nonneg (e v : K) : 0 ≤ lyap e v := by
  unfold lyap
  nlinarith [sq_nonneg (20 * e + 19 * v), sq_nonneg v]

/-- The squared position error is bounded by twice the energy. -/
theorem sq_le_two_lyap (e v : K) : e ^ 2 ≤ 2 * lyap e v := by
  unfold lyap
  nlinarith [sq_nonneg (10 * e + 19 * v), sq_nonneg v]

/-- One zero-noise step contracts the energy by the factor `93/100`. -/
theorem lyap_decay (t : K) (s : K × K) :
    lyap ((zstepAxis t s).1 - t) (zstepAxis t s).2 ≤
      (93 / 100) * lyap (s.1 - t) s.2 := by
  rw [zstepAxis_spec]
  unfold lyap
  have key : (93 / 100) * ((s.1 - t) ^ 2 + (19 / 10) * (s.1 - t) * s.2 + 34 * s.2 ^ 2)
      - ((t + (2431 / 2500) * (s.1 - t) + (23 / 25) * s.2 - t) ^ 2
        + (19 / 10) * (t + (2431 / 2500) * (s.1 - t) + (23 / 25) * s.2 - t)
          * ((23 / 25) * s.2 - (69 / 2500) * (s.1 - t))
        + 34 * ((23 / 25) * s.2 - (69 / 2500) * (s.1 - t)) ^ 2)
      = (1 / 37230687500000) * (595691 * (s.1 - t) + 1654050 * s.2) ^ 2
        + (37451739 / 119138200) * s.2 ^ 2 := by
    ring
  nlinarith [sq_nonneg (595691 * (s.1 - t) + 1654050 * s.2), sq_nonneg s.2, key]

/-- After `n` zero-noise steps the energy has decayed by `(93/100)^n`. -/
theorem lyap_iter (t : K) (s : K × K) (n : ℕ) :
    lyap ((ziterAxis t n s).1 - t) (ziterAxis t n s).2 ≤
      (93 / 100) ^ n * lyap (s.1 - t) s.2 := by
  induction n with
  | zero => simp [ziterAxis]
  | succ n ih =>
    calc lyap ((ziterAxis t (n + 1) s).1 - t) (ziterAxis t (n + 1) s).2
        ≤ (93 / 100) * lyap ((ziterAxis t n s).1 - t) (ziterAxis t n s).2 :=
          lyap_decay t (ziterAxis t n s)
      _ ≤ (93 / 100) * ((93 / 100) ^ n * lyap (s.1 - t) s.2) :=
          mul_le_mul_of_nonneg_left ih (by norm_num)
      _ = (93 / 100) ^ (n + 1) * lyap (s.1 - t) s.2 := by ring

/-- The three axes of the zero-noise iteration evolve independently. -/
theorem ziter_components (t p v : K × K × K) (n : ℕ) :
    ziter t n (p, v) =
      (((ziterAxis t.1 n (p.1, v.1)).1, (ziterAxis t.2.1 n (p.2.1, v.2.1)).1,
        (ziterAxis t.2.2 n (p.2.2, v.2.2)).1),
       ((ziterAxis t.1 n (p.1, v.1)).2, (ziterAxis t.2.1 n (p.2.1, v.2.1)).2,
        (ziterAxis t.2.2 n (p.2.2, v.2.2)).2)) := by
  induction n with
  | zero => rfl
  | succ n ih =>
    show zstep t (ziter t n (p, v)) = _
    rw [ih]
    rfl

/-- Claim C4 counterexample: the Euclidean distance to the target is not
monotone along the zero-noise iteration: starting at the target with unit
velocity on the x-axis, one step moves the particle from distance 0 to
distance 0.92 (squared distance 0 to 0.8464). -/
theorem C4_counterexample :
    ¬ (distSq (K := ℚ)
          ((ziter ((0 : ℚ), (0 : ℚ), (0 : ℚ)) 1 ((0, 0, 0), (1, 0, 0))).1)
          (0, 0, 0) ≤
        distSq (K := ℚ)
          ((ziter ((0 : ℚ), (0 : ℚ), (0 : ℚ)) 0 ((0, 0, 0), (1, 0, 0))).1)
          (0, 0, 0)) := by
  norm_num [ziter, zstep, stepParticle, stepAxis, attraction, damping,
    noiseAmt, distSq]

/-- Claim C4 as amended: with a constant target and the noise term equal to
zero, repeated application of the per-particle update step drives `current`
to `target`: the squared Euclidean distance tends to 0 (the approach is
asymptotic, not monotone step by step — a weighted position-velocity energy,
not the raw distance, is what decreases each step). -/
theorem C4_amended_convergence (t p v : ℝ × ℝ × ℝ) :
    Filter.Tendsto (fun n => distSq ((ziter t n (p, v)).1) t)
      Filter.atTop (nhds 0) := by
  set E0 : ℝ := lyap (p.1 - t.1) v.1 + lyap (p.2.1 - t.2.1) v.2.1
    + lyap (p.2.2 - t.2.2) v.2.2 with hE0
  have hbound : ∀ n, distSq ((ziter t n (p, v)).1) t ≤ 2 * E0 * (93 / 100) ^ n := by
    intro n
    rw [ziter_components]
    unfold distSq
    have h1 := lyap_iter t.1 (p.1, v.1) n
    have h2 := lyap_iter t.2.1 (p.2.1, v.2.1) n
    have h3 := lyap_iter t.2.2 (p.2.2, v.2.2) n
    have e1 := sq_le_two_lyap ((ziterAxis t.1 n (p.1, v.1)).1 - t.1)
      (ziterAxis t.1 n (p.1, v.1)).2
    have e2 := sq_le_two_lyap ((ziterAxis t.2.1 n (p.2.1, v.2.1)).1 - t.2.1)
      (ziterAxis t.2.1 n (p.2.1, v.2.1)).2
    have e3 := sq_le_two_lyap ((ziterAxis t.2.2 n (p.2.2, v.2.2)).1 - t.2.2)
      (ziterAxis t.2.2 n (p.2.2, v.2.2)).2
    rw [hE0]
    dsimp only
    linarith
  have hnn : ∀ n, 0 ≤ distSq ((ziter t n (p, v)).1) t := by
    intro n
    unfold distSq
    positivity
  have hgeo : Filter.Tendsto (fun n : ℕ => 2 * E0 * (93 / 100 : ℝ) ^ n)
      Filter.atTop (nhds 0) := by
    have hp := tendsto_pow_atTop_nhds_zero_of_lt_one
      (by norm_num : (0 : ℝ) ≤ 93 / 100) (by norm_num : (93 / 100 : ℝ) < 1)
    simpa using hp.const_mul (2 * E0)
  exact squeeze_zero hnn hbound hgeo

end Particles
